import Mathlib

/-!
Shallow embedding of the reminder bot (`src/bot.py`).

Strings are modelled as `List Char` (`Str`).  The external natural-language
date parser (`dateparser.parse` / `dateparser.search.search_dates`) is an
external collaborator and is modelled as an oracle carried in a `ParseCfg`.
Python `datetime` timezone-aware values are modelled as an absolute epoch
instant (in seconds, exact rationals instead of floats) together with the
UTC offset of their representation; `astimezone(timezone.utc)` keeps the
instant and sets the offset to zero.

Error taxonomy: the spec's `ParseError`/`ValidationError` names map to the
`ValueError`s raised in `bot.py`; each constructor is paired with the exact
French message the code raises.
-/

namespace Bot

abbrev Str := List Char

/-- Python `str.strip()` whitespace test (`Char.isWhitespace`). -/
def isWs (c : Char) : Bool := c.isWhitespace

/-- Leading-whitespace trim, `lstrip()`. -/
def trimLeft (s : Str) : Str := s.dropWhile isWs

/-- Trailing-whitespace trim, `rstrip()`. -/
def trimRight (s : Str) : Str := (s.reverse.dropWhile isWs).reverse

/-- Python `str.strip()`. -/
def trim (s : Str) : Str := trimRight (trimLeft s)

/-- Python `str.strip(chars)`: remove the characters in `cs` from both ends. -/
def stripBoth (cs : List Char) (s : Str) : Str :=
  ((s.dropWhile (fun c => cs.contains c)).reverse.dropWhile
      (fun c => cs.contains c)).reverse

/-- The boundary characters stripped by `bot.py` line 69: `" ,-–—:;"`. -/
def boundaryChars : List Char := [' ', ',', '-', '–', '—', ':', ';']

/-- Split at the first occurrence of `sep`, Python `s.split(sep, 1)` when
`sep in s`; `none` when the separator is absent. -/
def splitFirst (sep : Char) : Str → Option (Str × Str)
  | [] => none
  | c :: rest =>
    if c = sep then some ([], rest)
    else
      match splitFirst sep rest with
      | none => none
      | some (a, b) => some (c :: a, b)

/-- Worker for `replaceAll`, structurally recursive on a fuel argument
(each step consumes at least one character, so fuel = initial length is
enough; the `0, s` line is unreachable). -/
def replaceAllAux (pat : Str) : Nat → Str → Str
  | _, [] => []
  | 0, s => s
  | fuel + 1, c :: rest =>
    if pat ≠ [] ∧ pat.isPrefixOf (c :: rest) then
      replaceAllAux pat fuel ((c :: rest).drop pat.length)
    else
      c :: replaceAllAux pat fuel rest

/-- Python `text.replace(pat, "")`: remove every (left-to-right,
non-overlapping) occurrence of `pat`; identity when `pat` is empty. -/
def replaceAll (pat s : Str) : Str := replaceAllAux pat s.length s

/-- `re.sub(r"^/r\s*", "", text, flags=re.IGNORECASE)` on bot.py line 36:
drop a leading `/r` (case-insensitive) and the whitespace that follows it. -/
def stripCmdPrefix : Str → Str
  | '/' :: 'r' :: rest => rest.dropWhile isWs
  | '/' :: 'R' :: rest => rest.dropWhile isWs
  | s => s

/-- Lines 35–36 of `bot.py`: `raw.strip()` then the `/r` prefix removal
then `.strip()` again. -/
def normalizeInput (raw : Str) : Str := trim (stripCmdPrefix (trim raw))

/-- A timezone-aware Python `datetime`: the absolute instant (epoch seconds,
exact) plus the UTC offset (seconds) of its representation. -/
structure PyDateTime where
  epoch : ℚ
  offsetSec : ℤ
deriving DecidableEq

/-- `dt.astimezone(timezone.utc)`: same instant, representation moved to
UTC (offset 0). -/
def astimezoneUtc (dt : PyDateTime) : PyDateTime := ⟨dt.epoch, 0⟩

/-- Oracle for the external `dateparser` library (French locale, configured
timezone, future preference — all inside the oracle).  `parse` models
`dateparser.parse` (`none` for Python `None`); `searchDates` models
`dateparser.search.search_dates` (`[]` for Python `None`/no match). -/
structure ParseCfg where
  parse : Str → Option PyDateTime
  searchDates : Str → List (Str × PyDateTime)

/-- The spec's `ParseError` kinds; each is a `ValueError` in `bot.py`. -/
inductive ParseErr
  | emptyMessage
  | unparseableTime
  | noTimeFound
deriving DecidableEq

/-- The exact French message `bot.py` raises for each `ParseError` kind. -/
def ParseErr.frenchMessage : ParseErr → Str
  | .emptyMessage => "Message vide.".data
  | .unparseableTime => "Date/heure non comprise.".data
  | .noTimeFound => "Date/heure non trouvée.".data

/-- The default message used when fallback removal leaves nothing
(`"Rappel"`, the code's placeholder, glossed "Reminder" in the spec). -/
def rappelStr : Str := "Rappel".data

/-- Body of `_parse_when_and_message` after normalization (bot.py 39–72),
on the already-normalized `text`. -/
def resolveText (cfg : ParseCfg) (text : Str) :
    Except ParseErr (PyDateTime × Str × Str) :=
  match splitFirst '|' text with
  | some (pre, post) =>
    let whenPart := trim pre
    let msg := trim post
    if msg = [] then .error .emptyMessage
    else
      match cfg.parse whenPart with
      | none => .error .unparseableTime
      | some dt => .ok (astimezoneUtc dt, whenPart, msg)
  | none =>
    match cfg.searchDates text with
    | [] => .error .noTimeFound
    | (matchText, dt) :: _ =>
      let m := stripBoth boundaryChars (replaceAll matchText text)
      let msg := if m = [] then rappelStr else m
      .ok (astimezoneUtc dt, matchText, msg)

/-- `_parse_when_and_message` (bot.py 30–72): returns
`(when_dt_utc, human_when, message)` or the raised `ParseError`. -/
def parseWhenAndMessage (cfg : ParseCfg) (raw : Str) :
    Except ParseErr (PyDateTime × Str × Str) :=
  resolveText cfg (normalizeInput raw)

/-- The spec's `ValidationError`; `ValueError("La date/heure est trop proche
ou déjà passée.")` in `bot.py` line 95. -/
inductive ValidationErr
  | tooSoonOrPast
deriving DecidableEq

/-- Python `int()` truncation toward zero on an exact rational. -/
def truncQ (q : ℚ) : ℤ := if q < 0 then -(⌊-q⌋) else ⌊q⌋

/-- `f"reminder-{chat_id}-{int(when_utc.timestamp())}"` (bot.py line 102). -/
def mkJobName (chatId : ℤ) (whenEpoch : ℚ) : Str :=
  ("reminder-".data) ++ (toString chatId).data ++ ("-".data)
    ++ (toString (truncQ whenEpoch)).data

/-- The `ScheduledJob` handed to `job_queue.run_once` (bot.py 98–103). -/
structure ScheduledJob where
  name : Str
  delaySeconds : ℚ
  chatId : ℤ
  msg : Str
deriving DecidableEq

/-- The scheduling step of `r_cmd` (bot.py 92–103): compute the delay,
validate it against the 5-second minimum, build the job. -/
def schedule (chatId : ℤ) (whenEpoch nowEpoch : ℚ) (msg : Str) :
    Except ValidationErr ScheduledJob :=
  let delay := whenEpoch - nowEpoch
  if delay < 5 then .error .tooSoonOrPast
  else .ok ⟨mkJobName chatId whenEpoch, delay, chatId, msg⟩

/-- The user-visible outcome of `r_cmd`: the confirmation reply (line 107)
or the uniform `"❌ Je n’ai pas compris."` reply of the catch-all handler
(line 110). -/
inductive Reply
  | confirmed (humanWhen : Str) (msg : Str)
  | notUnderstood
deriving DecidableEq

/-- `r_cmd` (bot.py 87–110).  The job queue is the list of registered jobs;
`regOk` models whether `job_queue.run_once` succeeds or raises.  The single
`except Exception` turns every raised error — parse, validation, and
registration alike — into the uniform `notUnderstood` reply, leaving the
queue unchanged. -/
def r_cmd (cfg : ParseCfg) (regOk : ScheduledJob → Bool)
    (queue : List ScheduledJob) (chatId : ℤ) (nowEpoch : ℚ) (raw : Str) :
    List ScheduledJob × Reply :=
  match parseWhenAndMessage cfg raw with
  | .error _ => (queue, .notUnderstood)
  | .ok (dtUtc, humanWhen, msg) =>
    match schedule chatId dtUtc.epoch nowEpoch msg with
    | .error _ => (queue, .notUnderstood)
    | .ok job =>
      if regOk job then (queue ++ [job], .confirmed humanWhen msg)
      else (queue, .notUnderstood)

end Bot


namespace Bot

instance {ε α : Type} [DecidableEq ε] [DecidableEq α] : DecidableEq (Except ε α) :=
  fun a b =>
    match a, b with
    | .error e, .error f =>
      if h : e = f then .isTrue (by rw [h])
      else .isFalse (fun hc => h (by cases hc; rfl))
    | .error _, .ok _ => .isFalse (fun hc => by cases hc)
    | .ok _, .error _ => .isFalse (fun hc => by cases hc)
    | .ok x, .ok y =>
      if h : x = y then .isTrue (by rw [h])
      else .isFalse (fun hc => h (by cases hc; rfl))

/-- Splitting at the first separator: when `sep` does not occur in `a`,
`splitFirst` on `a ++ sep :: b` cuts exactly there. -/
lemma splitFirst_append (sep : Char) (a b : Str) (ha : sep ∉ a) :
    splitFirst sep (a ++ sep :: b) = some (a, b) := by
  induction a with
  | nil => simp [splitFirst]
  | cons c cs ih =>
    simp only [List.mem_cons, not_or] at ha
    have hc : ¬(c = sep) := fun h => ha.1 h.symm
    simp only [List.cons_append, splitFirst, if_neg hc, List.append_eq, ih ha.2]

/-- A successful `schedule` always carries the computed delay and the
deterministic name. -/
lemma schedule_ok_iff (chatId : ℤ) (whenE nowE : ℚ) (msg : Str) (j : ScheduledJob) :
    schedule chatId whenE nowE msg = .ok j ↔
      ¬(whenE - nowE < 5) ∧ j = ⟨mkJobName chatId whenE, whenE - nowE, chatId, msg⟩ := by
  unfold schedule
  by_cases h : whenE - nowE < 5
  · simp [h]
  · simp [h, eq_comm]

/-- C1: `schedule` raises the `ValidationError` exactly when the delta
`triggerInstant - now` is below 5 seconds (so also at 4.999 s and at every
negative delta), and returns a job exactly when the delta is ≥ 5 s. -/
theorem schedule_error_iff_delta_lt_five (chatId : ℤ) (whenE nowE : ℚ) (msg : Str) :
    ((∃ e, schedule chatId whenE nowE msg = .error e) ↔ whenE - nowE < 5) ∧
    ((∃ j, schedule chatId whenE nowE msg = .ok j) ↔ 5 ≤ whenE - nowE) := by
  unfold schedule
  by_cases h : whenE - nowE < 5
  · simp [h]
    exact ⟨.tooSoonOrPast, trivial⟩
  · simp [h, le_of_not_lt h]


/-- Evaluation of `_parse_when_and_message`, explicit-delimiter tier,
success case. -/
lemma pwm_sep_ok (cfg : ParseCfg) (raw pre post : Str) (dt : PyDateTime)
    (hs : splitFirst '|' (normalizeInput raw) = some (pre, post))
    (hmsg : trim post ≠ []) (hp : cfg.parse (trim pre) = some dt) :
    parseWhenAndMessage cfg raw = .ok (astimezoneUtc dt, trim pre, trim post) := by
  unfold parseWhenAndMessage resolveText
  rw [hs]
  simp [hmsg, hp]

/-- Evaluation of `_parse_when_and_message`, explicit-delimiter tier,
blank message case. -/
lemma pwm_sep_empty (cfg : ParseCfg) (raw pre post : Str)
    (hs : splitFirst '|' (normalizeInput raw) = some (pre, post))
    (hpost : trim post = []) :
    parseWhenAndMessage cfg raw = .error .emptyMessage := by
  unfold parseWhenAndMessage resolveText
  rw [hs]
  simp [hpost]

/-- Evaluation of `_parse_when_and_message`, explicit-delimiter tier,
unparseable "when" segment. -/
lemma pwm_sep_none (cfg : ParseCfg) (raw pre post : Str)
    (hs : splitFirst '|' (normalizeInput raw) = some (pre, post))
    (hmsg : trim post ≠ []) (hp : cfg.parse (trim pre) = none) :
    parseWhenAndMessage cfg raw = .error .unparseableTime := by
  unfold parseWhenAndMessage resolveText
  rw [hs]
  simp [hmsg, hp]

/-- Evaluation of `_parse_when_and_message`, fallback tier, when the
full-text search finds a first match. -/
lemma pwm_fallback (cfg : ParseCfg) (raw m : Str) (dt : PyDateTime)
    (rest : List (Str × PyDateTime))
    (hs : splitFirst '|' (normalizeInput raw) = none)
    (hf : cfg.searchDates (normalizeInput raw) = (m, dt) :: rest) :
    parseWhenAndMessage cfg raw = .ok (astimezoneUtc dt, m,
      if stripBoth boundaryChars (replaceAll m (normalizeInput raw)) = []
      then rappelStr
      else stripBoth boundaryChars (replaceAll m (normalizeInput raw))) := by
  unfold parseWhenAndMessage resolveText
  rw [hs, hf]

/-- Evaluation of `r_cmd` once parsing and validation both passed: the
outcome is decided by whether registration succeeds. -/
lemma r_cmd_reg_branch (cfg : ParseCfg) (regOk : ScheduledJob → Bool)
    (queue : List ScheduledJob) (chatId : ℤ) (nowE : ℚ) (raw : Str)
    (dt : PyDateTime) (hw msg : Str) (job : ScheduledJob)
    (hp : parseWhenAndMessage cfg raw = .ok (dt, hw, msg))
    (hs : schedule chatId dt.epoch nowE msg = .ok job) :
    r_cmd cfg regOk queue chatId nowE raw =
      if regOk job then (queue ++ [job], .confirmed hw msg)
      else (queue, .notUnderstood) := by
  simp only [r_cmd, hp, hs]

/- Concrete oracles and inputs used by the witnesses below. -/

/-- A sample timezone-aware instant (epoch 1700000000, offset +1 h). -/
def dtW : PyDateTime := ⟨1700000000, 3600⟩

/-- Oracle accepting exactly "demain 14h" in tier 1, finding nothing in
tier 2. -/
def cfgSep : ParseCfg :=
  ⟨fun s => if s = "demain 14h".data then some dtW else none, fun _ => []⟩

def rawSep : Str := "/r demain 14h | appeler le garage".data

/-- Oracle that parses nothing and finds nothing. -/
def cfgNone : ParseCfg := ⟨fun _ => none, fun _ => []⟩

/-- Oracle that parses nothing in tier 1 but whose full-text search finds
"demain" inside either fallback input below. -/
def cfgFall : ParseCfg :=
  ⟨fun _ => none,
   fun t => if t = "demain courir".data ∨ t = "demain".data
            then [("demain".data, dtW)] else []⟩

/-- A registration oracle that always rejects (`run_once` raises). -/
def regNever : ScheduledJob → Bool := fun _ => false

/-- A registration oracle that always accepts. -/
def regAlways : ScheduledJob → Bool := fun _ => true


/-- C2: whenever the input contains a separator, the pre-separator segment
is accepted by the date parser, and the post-separator text is non-blank,
`resolve` succeeds and the returned message is exactly the post-separator
text with surrounding whitespace trimmed. -/
theorem resolve_separator_returns_trimmed_post (cfg : ParseCfg) (raw pre post : Str)
    (dt : PyDateTime)
    (hs : splitFirst '|' (normalizeInput raw) = some (pre, post))
    (hmsg : trim post ≠ []) (hp : cfg.parse (trim pre) = some dt) :
    parseWhenAndMessage cfg raw = .ok (astimezoneUtc dt, trim pre, trim post) :=
  pwm_sep_ok cfg raw pre post dt hs hmsg hp

theorem resolve_separator_returns_trimmed_post_witness :
    parseWhenAndMessage cfgSep rawSep =
      .ok (astimezoneUtc dtW, "demain 14h".data, "appeler le garage".data) :=
  resolve_separator_returns_trimmed_post cfgSep rawSep
    ("demain 14h ".data) (" appeler le garage".data) dtW
    (by decide) (by decide) (by decide)

/-- C7: whenever the input contains a separator and the post-separator
segment is blank after trimming, `resolve` fails with the "empty message"
`ParseError`, no matter what the date parser would say about the
pre-separator segment. -/
theorem resolve_empty_message_error (cfg : ParseCfg) (raw pre post : Str)
    (hs : splitFirst '|' (normalizeInput raw) = some (pre, post))
    (hpost : trim post = []) :
    parseWhenAndMessage cfg raw = .error .emptyMessage :=
  pwm_sep_empty cfg raw pre post hs hpost

theorem resolve_empty_message_error_witness :
    parseWhenAndMessage cfgNone ("/r demain 14h |   ".data) = .error .emptyMessage :=
  resolve_empty_message_error cfgNone ("/r demain 14h |   ".data)
    ("demain 14h ".data) [] (by decide) (by decide)

/-- C5: every successful `resolve` result — from either tier — carries a
trigger instant whose representation has been converted to UTC
(`astimezone(timezone.utc)`, offset 0). -/
theorem resolve_returns_utc (cfg : ParseCfg) (raw : Str) (dt : PyDateTime)
    (hw msg : Str)
    (h : parseWhenAndMessage cfg raw = .ok (dt, hw, msg)) :
    dt.offsetSec = 0 := by
  unfold parseWhenAndMessage resolveText at h
  rcases hs : splitFirst '|' (normalizeInput raw) with _ | ⟨pre, post⟩
  · rw [hs] at h
    dsimp only at h
    rcases hf : cfg.searchDates (normalizeInput raw) with _ | ⟨⟨m, dt2⟩, rest⟩
    · rw [hf] at h
      exact absurd h (by simp)
    · rw [hf] at h
      dsimp only at h
      simp only [Except.ok.injEq, Prod.mk.injEq] at h
      obtain ⟨h1, -, -⟩ := h
      subst h1
      rfl
  · rw [hs] at h
    dsimp only at h
    by_cases hm : trim post = []
    · rw [if_pos hm] at h
      exact absurd h (by simp)
    · rw [if_neg hm] at h
      rcases hp : cfg.parse (trim pre) with _ | dt2
      · rw [hp] at h
        exact absurd h (by simp)
      · rw [hp] at h
        simp only [Except.ok.injEq, Prod.mk.injEq] at h
        obtain ⟨h1, -, -⟩ := h
        subst h1
        rfl

theorem resolve_returns_utc_witness : PyDateTime.offsetSec (astimezoneUtc dtW) = 0 :=
  resolve_returns_utc cfgSep rawSep (astimezoneUtc dtW)
    ("demain 14h".data) ("appeler le garage".data) (by decide)

/-- C6: (a) on any input containing a separator, `resolve` never consults
the full-text date search — its result only depends on `parse`; (b) if the
pre-separator segment is unparseable (and the message non-blank), `resolve`
fails with the "unparseable time" `ParseError` instead of falling back;
(c) in fallback mode the matched phrase is the first match the search
returns. -/
theorem resolve_tiering (cfg cfgB : ParseCfg) (raw : Str) :
    (cfg.parse = cfgB.parse → (splitFirst '|' (normalizeInput raw)).isSome →
      parseWhenAndMessage cfg raw = parseWhenAndMessage cfgB raw) ∧
    (∀ pre post, splitFirst '|' (normalizeInput raw) = some (pre, post) →
      trim post ≠ [] → cfg.parse (trim pre) = none →
      parseWhenAndMessage cfg raw = .error .unparseableTime) ∧
    (∀ m dt rest, splitFirst '|' (normalizeInput raw) = none →
      cfg.searchDates (normalizeInput raw) = (m, dt) :: rest →
      ∃ d msg, parseWhenAndMessage cfg raw = .ok (d, m, msg)) := by
  refine ⟨?_, ?_, ?_⟩
  · intro hpe hsome
    obtain ⟨⟨pre, post⟩, hs⟩ := Option.isSome_iff_exists.mp hsome
    unfold parseWhenAndMessage resolveText
    rw [hs, hpe]
  · intro pre post hs hmsg hp
    exact pwm_sep_none cfg raw pre post hs hmsg hp
  · intro m dt rest hs hf
    exact ⟨_, _, pwm_fallback cfg raw m dt rest hs hf⟩

theorem resolve_tiering_witness :
    parseWhenAndMessage cfgFall ("/r banana | eat it".data) =
      parseWhenAndMessage cfgNone ("/r banana | eat it".data) ∧
    parseWhenAndMessage cfgFall ("/r banana | eat it".data) =
      .error .unparseableTime ∧
    ∃ d msg, parseWhenAndMessage cfgFall ("/r demain".data) =
      .ok (d, "demain".data, msg) :=
  ⟨(resolve_tiering cfgFall cfgNone ("/r banana | eat it".data)).1 rfl (by decide),
   (resolve_tiering cfgFall cfgNone ("/r banana | eat it".data)).2.1
     ("banana ".data) (" eat it".data) (by decide) (by decide) (by decide),
   (resolve_tiering cfgFall cfgNone ("/r demain".data)).2.2
     ("demain".data) dtW [] (by decide) (by decide)⟩

/-- C3: on any input without a separator whose full-text search finds a
first match, `resolve` succeeds; the message is the input with every
occurrence of the matched phrase removed (Python `str.replace`) and the
boundary characters `" ,-–—:;"` stripped, defaulting to the placeholder
(`"Rappel"`, spec gloss "Reminder") when that removal leaves nothing. -/
theorem resolve_fallback_message_removal (cfg : ParseCfg) (raw m : Str)
    (dt : PyDateTime) (rest : List (Str × PyDateTime))
    (hs : splitFirst '|' (normalizeInput raw) = none)
    (hf : cfg.searchDates (normalizeInput raw) = (m, dt) :: rest) :
    (stripBoth boundaryChars (replaceAll m (normalizeInput raw)) ≠ [] →
      parseWhenAndMessage cfg raw = .ok (astimezoneUtc dt, m,
        stripBoth boundaryChars (replaceAll m (normalizeInput raw)))) ∧
    (stripBoth boundaryChars (replaceAll m (normalizeInput raw)) = [] →
      parseWhenAndMessage cfg raw = .ok (astimezoneUtc dt, m, rappelStr)) := by
  have h := pwm_fallback cfg raw m dt rest hs hf
  constructor
  · intro hne
    rw [h, if_neg hne]
  · intro he
    rw [h, if_pos he]

theorem resolve_fallback_message_removal_witness :
    parseWhenAndMessage cfgFall ("/r demain courir".data) =
      .ok (astimezoneUtc dtW, "demain".data, "courir".data) ∧
    parseWhenAndMessage cfgFall ("/r demain".data) =
      .ok (astimezoneUtc dtW, "demain".data, rappelStr) :=
  ⟨(resolve_fallback_message_removal cfgFall ("/r demain courir".data)
      ("demain".data) dtW [] (by decide) (by decide)).1 (by decide),
   (resolve_fallback_message_removal cfgFall ("/r demain".data)
      ("demain".data) dtW [] (by decide) (by decide)).2 (by decide)⟩

/-- C10: the explicit-delimiter tier splits at the first separator only:
writing the normalized input as `a ++ '|' :: b` with no separator in `a`,
the parsed "when" segment is `trim a`, and the message is `trim b`
verbatim — further separator characters inside `b` are kept. -/
theorem resolve_first_separator_split (cfg : ParseCfg) (raw a b : Str)
    (htext : normalizeInput raw = a ++ '|' :: b) (ha : '|' ∉ a)
    (hmsg : trim b ≠ []) :
    (∀ dt, cfg.parse (trim a) = some dt →
      parseWhenAndMessage cfg raw = .ok (astimezoneUtc dt, trim a, trim b)) ∧
    (cfg.parse (trim a) = none →
      parseWhenAndMessage cfg raw = .error .unparseableTime) := by
  have hs : splitFirst '|' (normalizeInput raw) = some (a, b) := by
    rw [htext]
    exact splitFirst_append '|' a b ha
  exact ⟨fun dt hp => pwm_sep_ok cfg raw a b dt hs hmsg hp,
         fun hp => pwm_sep_none cfg raw a b hs hmsg hp⟩

theorem resolve_first_separator_split_witness :
    parseWhenAndMessage cfgSep ("/r demain 14h | acheter 1 | 2 kg".data) =
      .ok (astimezoneUtc dtW, "demain 14h".data, "acheter 1 | 2 kg".data) :=
  (resolve_first_separator_split cfgSep ("/r demain 14h | acheter 1 | 2 kg".data)
      ("demain 14h ".data) (" acheter 1 | 2 kg".data)
      (by decide) (by decide) (by decide)).1 dtW (by decide)


/-- C8: `r_cmd` either leaves the job queue unchanged or registers exactly
one job, and every job it registers has `delaySeconds ≥ 5` at creation
time; whenever the failure reply is produced (validation failure included),
the queue is unchanged — no job is created or registered on error. -/
theorem r_cmd_queue_invariant (cfg : ParseCfg) (regOk : ScheduledJob → Bool)
    (queue : List ScheduledJob) (chatId : ℤ) (nowE : ℚ) (raw : Str) :
    ((r_cmd cfg regOk queue chatId nowE raw).1 = queue ∨
      ∃ job, (r_cmd cfg regOk queue chatId nowE raw).1 = queue ++ [job] ∧
        5 ≤ job.delaySeconds) ∧
    ((r_cmd cfg regOk queue chatId nowE raw).2 = .notUnderstood →
      (r_cmd cfg regOk queue chatId nowE raw).1 = queue) := by
  rcases hp : parseWhenAndMessage cfg raw with e | ⟨dt, hw, msg⟩
  · have key : r_cmd cfg regOk queue chatId nowE raw = (queue, .notUnderstood) := by
      simp [r_cmd, hp]
    rw [key]
    exact ⟨Or.inl rfl, fun _ => rfl⟩
  · rcases hsch : schedule chatId dt.epoch nowE msg with e | job
    · have key : r_cmd cfg regOk queue chatId nowE raw = (queue, .notUnderstood) := by
        simp [r_cmd, hp, hsch]
      rw [key]
      exact ⟨Or.inl rfl, fun _ => rfl⟩
    · have hj := (schedule_ok_iff chatId dt.epoch nowE msg job).mp hsch
      by_cases hr : regOk job
      · have key : r_cmd cfg regOk queue chatId nowE raw =
            (queue ++ [job], .confirmed hw msg) := by
          simp [r_cmd, hp, hsch, hr]
        rw [key]
        refine ⟨Or.inr ⟨job, rfl, ?_⟩, fun hcon => absurd hcon (by simp)⟩
        rw [hj.2]
        exact le_of_not_lt hj.1
      · have key : r_cmd cfg regOk queue chatId nowE raw = (queue, .notUnderstood) := by
          simp [r_cmd, hp, hsch, hr]
        rw [key]
        exact ⟨Or.inl rfl, fun _ => rfl⟩

theorem r_cmd_queue_invariant_witness :
    (r_cmd cfgNone regAlways [] 1 0 ("/r banana".data)).1 = [] :=
  (r_cmd_queue_invariant cfgNone regAlways [] 1 0 ("/r banana".data)).2 (by decide)

/-- C9: the job identifier is a deterministic function of the subject
(chat id) and the trigger instant's epoch value: two scheduling calls with
the same subject and the same instant both succeed without crashing on the
name collision and produce identical identifier strings, whatever their
messages and clock readings (both passing validation). -/
theorem schedule_identifier_deterministic (chatId : ℤ) (whenE now1 now2 : ℚ)
    (m1 m2 : Str) (h1 : 5 ≤ whenE - now1) (h2 : 5 ≤ whenE - now2) :
    ∃ j1 j2, schedule chatId whenE now1 m1 = .ok j1 ∧
      schedule chatId whenE now2 m2 = .ok j2 ∧ j1.name = j2.name := by
  refine ⟨⟨mkJobName chatId whenE, whenE - now1, chatId, m1⟩,
          ⟨mkJobName chatId whenE, whenE - now2, chatId, m2⟩, ?_, ?_, rfl⟩
  · exact (schedule_ok_iff chatId whenE now1 m1 _).mpr ⟨not_lt.mpr h1, rfl⟩
  · exact (schedule_ok_iff chatId whenE now2 m2 _).mpr ⟨not_lt.mpr h2, rfl⟩

theorem schedule_identifier_deterministic_witness :
    ∃ j1 j2, schedule 7 100 0 ("tester".data) = .ok j1 ∧
      schedule 7 100 90 ("autre".data) = .ok j2 ∧ j1.name = j2.name :=
  schedule_identifier_deterministic 7 100 0 90 ("tester".data) ("autre".data)
    (by norm_num) (by norm_num)

/-- C4 counterexample: on an input that parses and validates but whose
timer registration is rejected, `r_cmd` emits the very same uniform
`notUnderstood` reply that a `ParseError` input produces (second conjunct):
the registration failure is caught by the blanket `except Exception`
(bot.py line 109) and never surfaces as a distinct infrastructure error. -/
theorem r_cmd_registration_failure_not_distinct :
    r_cmd cfgSep regNever [] 7 0 rawSep = ([], .notUnderstood) ∧
    r_cmd cfgSep regNever [] 7 0 ("/r banana".data) = ([], .notUnderstood) := by
  constructor
  · have hp : parseWhenAndMessage cfgSep rawSep =
        .ok (astimezoneUtc dtW, "demain 14h".data, "appeler le garage".data) := by
      decide
    have hdelay : ¬((astimezoneUtc dtW).epoch - 0 < 5) := by
      norm_num [astimezoneUtc, dtW]
    have hs : schedule 7 (astimezoneUtc dtW).epoch 0 ("appeler le garage".data) =
        .ok ⟨mkJobName 7 (astimezoneUtc dtW).epoch,
             (astimezoneUtc dtW).epoch - 0, 7, "appeler le garage".data⟩ :=
      (schedule_ok_iff _ _ _ _ _).mpr ⟨hdelay, rfl⟩
    rw [r_cmd_reg_branch cfgSep regNever [] 7 0 rawSep _ _ _ _ hp hs]
    rfl
  · have hp : parseWhenAndMessage cfgSep ("/r banana".data) = .error .noTimeFound := by
      decide
    simp [r_cmd, hp]

/-- C4 amended: when the external timer's registration call fails, `r_cmd`
catches the failure with the same blanket handler as parse and validation
errors and replies with the uniform `notUnderstood` message, leaving the
queue unchanged: the user does get a reply (the reminder is not dropped
without notice), but the failure is indistinguishable from a parse or
validation failure rather than a distinct infrastructure error. -/
theorem r_cmd_registration_failure_uniform_reply (cfg : ParseCfg)
    (regOk : ScheduledJob → Bool) (queue : List ScheduledJob) (chatId : ℤ)
    (nowE : ℚ) (raw : Str) (dt : PyDateTime) (hw msg : Str) (job : ScheduledJob)
    (hp : parseWhenAndMessage cfg raw = .ok (dt, hw, msg))
    (hs : schedule chatId dt.epoch nowE msg = .ok job)
    (hr : regOk job = false) :
    r_cmd cfg regOk queue chatId nowE raw = (queue, .notUnderstood) := by
  rw [r_cmd_reg_branch cfg regOk queue chatId nowE raw dt hw msg job hp hs, hr]
  simp

theorem r_cmd_registration_failure_uniform_reply_witness :
    r_cmd cfgSep regNever [] 9 0 rawSep = ([], .notUnderstood) :=
  r_cmd_registration_failure_uniform_reply cfgSep regNever [] 9 0 rawSep
    (astimezoneUtc dtW) ("demain 14h".data) ("appeler le garage".data)
    ⟨mkJobName 9 (astimezoneUtc dtW).epoch, (astimezoneUtc dtW).epoch - 0, 9,
      "appeler le garage".data⟩
    (by decide)
    ((schedule_ok_iff _ _ _ _ _).mpr ⟨by norm_num [astimezoneUtc, dtW], rfl⟩)
    rfl

end Bot
